import Mathlib

/-!
Shallow embedding of the rbpf eBPF virtual machine core (src/lib.rs).

The embedding covers the pieces the verified claims are about:
  - the per-instruction dispatch of the interpreter loop in
    EbpfVmMbuff::prog_exec (register-file effects, branch-target
    computation, CALL dispatch, division-by-zero behaviour);
  - the memory guard EbpfVmMbuff::check_mem;
  - the entry register state built at the top of prog_exec.

Machine integers are modelled as Nat (unsigned values below 2^64 or
2^32) and Int (signed i16/i32/i64 values), with wrapping made explicit
through remainders.  Rust integer arithmetic that is allowed to wrap in
release builds (the plain +, the i16 addition in branch targets, the
shift counts of the plain shift operators) is modelled with the
release-build wrapping semantics, i.e. reduction modulo 2^width; Rust
casts with the `as` keyword (which truncate or sign-extend and never
abort) are modelled by the toU32/toU64/toI32/toI64/wrapI16/wrapI32
functions below.  Division and remainder by zero abort in Rust in every
build; they are modelled as fatal results.

The opcode byte values, the stack size and the instruction-slot layout
come from the module ebpf of this repository (referenced by lib.rs as
ebpf::ADD32_IMM and so on); that module is not part of the sources
given, so those constants are modelled from the spec (section 6 opcode
table, section 3 stack constant).  Every dispatch arm itself is
translated from the match in EbpfVmMbuff::prog_exec.
-/

namespace Rbpf

/-- Rust cast `z as u32` of a signed value: the value of the low 32 bits
of z read as an unsigned integer. -/
def toU32 (z : Int) : Nat := (z % 4294967296).toNat

/-- Rust cast `z as u64` of a signed value: the value of the low 64 bits
of z read as an unsigned integer (sign-extension for i32/i64 inputs). -/
def toU64 (z : Int) : Nat := (z % 18446744073709551616).toNat

/-- Rust cast `n as i32` of an unsigned value: the low 32 bits of n read
as a two's-complement signed integer. -/
def toI32 (n : Nat) : Int :=
  let m : Nat := n % 4294967296
  if m < 2147483648 then (m : Int) else (m : Int) - 4294967296

/-- Rust cast `n as i64` of an unsigned 64-bit value: the low 64 bits of
n read as a two's-complement signed integer. -/
def toI64 (n : Nat) : Int :=
  let m : Nat := n % 18446744073709551616
  if m < 9223372036854775808 then (m : Int) else (m : Int) - 18446744073709551616

/-- Reduction of an integer into the i16 range by truncation to 16 bits,
as performed both by the Rust cast `as i16` and by wrapping i16
addition. -/
def wrapI16 (z : Int) : Int :=
  let m : Nat := (z % 65536).toNat
  if m < 32768 then (m : Int) else (m : Int) - 65536

/-- Reduction of an integer into the i32 range by truncation to 32 bits,
as performed by the wrapping i32 arithmetic (wrapping_add, wrapping_sub,
wrapping_mul, wrapping_neg) used by the 32-bit ALU arms. -/
def wrapI32 (z : Int) : Int :=
  let m : Nat := (z % 4294967296).toNat
  if m < 2147483648 then (m : Int) else (m : Int) - 4294967296

/-- Arithmetic (sign-preserving) right shift of a two's-complement
value, i.e. floor division by a power of two; this is the Rust `>>` on
signed integers and the shift of wrapping_shr on i32. -/
def arsh (z : Int) (k : Nat) : Int := Int.fdiv z (2 ^ k)

/-- The Rust signed comparison `a > b` on i64 values (a bool). -/
def sgt (a b : Int) : Bool := decide (b < a)

/-- The Rust signed comparison `a >= b` on i64 values (a bool). -/
def sge (a b : Int) : Bool := decide (b ≤ a)

/-- One decoded eBPF instruction, the record produced by ebpf::get_insn:
opcode byte, destination and source register indices, signed 16-bit
offset and signed 32-bit immediate.  The register fields are Fin 11
because prog_exec indexes an 11-entry register array with them (an index
outside 0..10 would abort in Rust; the verifier rejects such programs
before execution). -/
structure Insn where
  opc : Nat
  dst : Fin 11
  src : Fin 11
  off : Int
  imm : Int

/-- The interpreter register file: eleven unsigned 64-bit registers. -/
abbrev RegFile := Fin 11 → Nat

/-- Write one register of the file, `reg[i] = v`. -/
def setReg (r : RegFile) (i : Fin 11) (v : Nat) : RegFile :=
  fun j => if j = i then v else r j

/-- The type of a registered helper function:
fn (u64, u64, u64, u64, u64) -> u64. -/
abbrev HelperFn := Nat → Nat → Nat → Nat → Nat → Nat

/-- The fatal run-time faults the interpreter loop body can raise. -/
inductive VmError where
  /-- The interpreter's own guard in the register forms of DIV and MOD:
  the abort with the message Error: division by 0. -/
  | divisionByZeroExplicit
  /-- The abort raised by the Rust division and remainder operators
  themselves when the divisor is zero (immediate forms, and the 32-bit
  register forms when only the low 32 source bits are zero). -/
  | divisionByZeroIntrinsic
  /-- CALL with a key absent from the helper table. -/
  | unknownHelper
  /-- A recognised but unimplemented opcode (LD_ABS, LD_IND, XADD,
  TAIL_CALL). -/
  | unimplementedOpcode
  /-- The catch-all arm of the dispatch for unrecognised opcode bytes. -/
  | unknownOpcode
deriving DecidableEq

/-- Outcome of executing one instruction of the interpreter loop. -/
inductive StepResult where
  /-- Execution continues with the given register file and instruction
  pointer. -/
  | ok (reg : RegFile) (ip : Nat)
  /-- EXIT: return the value of r0. -/
  | halt (v : Nat)
  /-- A fatal run-time fault. -/
  | fatal (e : VmError)
  /-- A guarded load or store through host memory (the LDX, ST and STX
  memory arms); the host-memory contents are outside this register-level
  model, so the arm is recorded by its opcode.  No claim depends on
  these arms. -/
  | memoryOp (opc : Nat)
  /-- The LE and BE conversion arms, whose result depends on the host
  byte order.  No claim depends on these arms. -/
  | hostEndian (opc : Nat)

/-- Register file of a result that continues, applied at one index
(zero for results that do not continue). -/
def StepResult.getReg : StepResult → Fin 11 → Nat
  | .ok r _, i => r i
  | _, _ => 0

/-- Instruction pointer of a result that continues (zero otherwise). -/
def StepResult.getIp : StepResult → Nat
  | .ok _ ip => ip
  | _ => 0

/-- Whether the result continues normally. -/
def StepResult.isOk : StepResult → Bool
  | .ok _ _ => true
  | _ => false

/-- Whether the result is one of the two division-by-zero aborts. -/
def StepResult.isDivZeroFatal : StepResult → Bool
  | .fatal .divisionByZeroExplicit => true
  | .fatal .divisionByZeroIntrinsic => true
  | _ => false

/-- The branch-target computation shared by every JMP arm of prog_exec:
`insn_ptr = (insn_ptr as i16 + insn.off) as usize`, where insn_ptr is
the index of the slot after the branch.  The usize cast of an i16
sign-extends, hence the reduction of the signed sum modulo 2^64. -/
def jmpTarget (ip : Nat) (off : Int) : Nat :=
  toU64 (wrapI16 (wrapI16 (ip : Int) + off))

/-- One iteration of the interpreter loop of EbpfVmMbuff::prog_exec,
after the fetch and the increment of the instruction pointer: `reg` is
the register file, `ip` the already-incremented instruction pointer
(the index of the slot after `insn`), `insn` the decoded instruction
and `next` the decoded slot at `ip` (read only by LD_DW_IMM).
`helpers` is the helper table, keyed by unsigned 32-bit values. -/
def execStep (helpers : Nat → Option HelperFn) (reg : RegFile) (ip : Nat)
    (insn : Insn) (next : Insn) : StepResult :=
  let d := insn.dst
  let s := insn.src
  let opc := insn.opc
  -- BPF_LD class: LD_ABS_W/H/B/DW and LD_IND_W/H/B/DW abort (unimplemented)
  if opc = 0x20 then .fatal .unimplementedOpcode
  else if opc = 0x28 then .fatal .unimplementedOpcode
  else if opc = 0x30 then .fatal .unimplementedOpcode
  else if opc = 0x38 then .fatal .unimplementedOpcode
  else if opc = 0x40 then .fatal .unimplementedOpcode
  else if opc = 0x48 then .fatal .unimplementedOpcode
  else if opc = 0x50 then .fatal .unimplementedOpcode
  else if opc = 0x58 then .fatal .unimplementedOpcode
  -- LD_DW_IMM: reg[dst] = ((insn.imm as u32) as u64) + ((next.imm as u64) << 32)
  else if opc = 0x18 then
    .ok (setReg reg d ((toU32 insn.imm +
      ((toU64 next.imm) <<< 32) % 18446744073709551616) %
        18446744073709551616)) (ip + 1)
  -- LD_B_REG, LD_H_REG, LD_W_REG, LD_DW_REG: guarded host-memory loads
  else if opc = 0x71 then .memoryOp opc
  else if opc = 0x69 then .memoryOp opc
  else if opc = 0x61 then .memoryOp opc
  else if opc = 0x79 then .memoryOp opc
  -- ST_B_IMM .. ST_DW_IMM, ST_B_REG .. ST_DW_REG: guarded host-memory stores
  else if opc = 0x72 then .memoryOp opc
  else if opc = 0x6a then .memoryOp opc
  else if opc = 0x62 then .memoryOp opc
  else if opc = 0x7a then .memoryOp opc
  else if opc = 0x73 then .memoryOp opc
  else if opc = 0x6b then .memoryOp opc
  else if opc = 0x63 then .memoryOp opc
  else if opc = 0x7b then .memoryOp opc
  -- ST_W_XADD, ST_DW_XADD abort (unimplemented)
  else if opc = 0xc3 then .fatal .unimplementedOpcode
  else if opc = 0xdb then .fatal .unimplementedOpcode
  -- ADD32_IMM: (reg[dst] as i32).wrapping_add(insn.imm) as u64
  else if opc = 0x04 then
    .ok (setReg reg d (toU64 (wrapI32 (toI32 (reg d) + insn.imm)))) ip
  -- ADD32_REG
  else if opc = 0x0c then
    .ok (setReg reg d (toU64 (wrapI32 (toI32 (reg d) + toI32 (reg s))))) ip
  -- SUB32_IMM
  else if opc = 0x14 then
    .ok (setReg reg d (toU64 (wrapI32 (toI32 (reg d) - insn.imm)))) ip
  -- SUB32_REG
  else if opc = 0x1c then
    .ok (setReg reg d (toU64 (wrapI32 (toI32 (reg d) - toI32 (reg s))))) ip
  -- MUL32_IMM
  else if opc = 0x24 then
    .ok (setReg reg d (toU64 (wrapI32 (toI32 (reg d) * insn.imm)))) ip
  -- MUL32_REG
  else if opc = 0x2c then
    .ok (setReg reg d (toU64 (wrapI32 (toI32 (reg d) * toI32 (reg s))))) ip
  -- DIV32_IMM: (reg[dst] as u32 / insn.imm as u32) as u64; Rust / aborts on 0
  else if opc = 0x34 then
    (if toU32 insn.imm = 0 then .fatal .divisionByZeroIntrinsic
     else .ok (setReg reg d (reg d % 4294967296 / toU32 insn.imm)) ip)
  -- DIV32_REG: explicit check on the full 64-bit source, then u32 division
  else if opc = 0x3c then
    (if reg s = 0 then .fatal .divisionByZeroExplicit
     else if reg s % 4294967296 = 0 then .fatal .divisionByZeroIntrinsic
     else .ok (setReg reg d (reg d % 4294967296 / (reg s % 4294967296))) ip)
  -- OR32_IMM
  else if opc = 0x44 then
    .ok (setReg reg d (reg d % 4294967296 ||| toU32 insn.imm)) ip
  -- OR32_REG
  else if opc = 0x4c then
    .ok (setReg reg d (reg d % 4294967296 ||| reg s % 4294967296)) ip
  -- AND32_IMM
  else if opc = 0x54 then
    .ok (setReg reg d (reg d % 4294967296 &&& toU32 insn.imm)) ip
  -- AND32_REG
  else if opc = 0x5c then
    .ok (setReg reg d (reg d % 4294967296 &&& reg s % 4294967296)) ip
  -- LSH32_IMM: (reg[dst] as u32).wrapping_shl(insn.imm as u32); count mod 32
  else if opc = 0x64 then
    .ok (setReg reg d (((reg d % 4294967296) <<< (toU32 insn.imm % 32)) %
      4294967296)) ip
  -- LSH32_REG
  else if opc = 0x6c then
    .ok (setReg reg d (((reg d % 4294967296) <<< (reg s % 4294967296 % 32)) %
      4294967296)) ip
  -- RSH32_IMM: (reg[dst] as u32).wrapping_shr(insn.imm as u32)
  else if opc = 0x74 then
    .ok (setReg reg d ((reg d % 4294967296) >>> (toU32 insn.imm % 32))) ip
  -- RSH32_REG
  else if opc = 0x7c then
    .ok (setReg reg d ((reg d % 4294967296) >>> (reg s % 4294967296 % 32))) ip
  -- NEG32: (reg[dst] as i32).wrapping_neg() as u64, then masked with U32MAX
  else if opc = 0x84 then
    .ok (setReg reg d (toU64 (wrapI32 (-(toI32 (reg d)))) % 4294967296)) ip
  -- MOD32_IMM: Rust % aborts on a zero divisor
  else if opc = 0x94 then
    (if toU32 insn.imm = 0 then .fatal .divisionByZeroIntrinsic
     else .ok (setReg reg d (reg d % 4294967296 % toU32 insn.imm)) ip)
  -- MOD32_REG: explicit check on the full 64-bit source, then u32 remainder
  else if opc = 0x9c then
    (if reg s = 0 then .fatal .divisionByZeroExplicit
     else if reg s % 4294967296 = 0 then .fatal .divisionByZeroIntrinsic
     else .ok (setReg reg d (reg d % 4294967296 % (reg s % 4294967296))) ip)
  -- XOR32_IMM
  else if opc = 0xa4 then
    .ok (setReg reg d (reg d % 4294967296 ^^^ toU32 insn.imm)) ip
  -- XOR32_REG
  else if opc = 0xac then
    .ok (setReg reg d (reg d % 4294967296 ^^^ reg s % 4294967296)) ip
  -- MOV32_IMM: insn.imm as u64 (a sign-extending cast)
  else if opc = 0xb4 then .ok (setReg reg d (toU64 insn.imm)) ip
  -- MOV32_REG: (reg[src] as u32) as u64 (zero-extending)
  else if opc = 0xbc then .ok (setReg reg d (reg s % 4294967296)) ip
  -- ARSH32_IMM: (reg[dst] as i32).wrapping_shr(imm as u32) as u64, masked
  else if opc = 0xc4 then
    .ok (setReg reg d (toU64 (arsh (toI32 (reg d)) (toU32 insn.imm % 32)) %
      4294967296)) ip
  -- ARSH32_REG
  else if opc = 0xcc then
    .ok (setReg reg d (toU64 (arsh (toI32 (reg d)) (reg s % 4294967296 % 32)) %
      4294967296)) ip
  -- LE / BE endianness conversions: depend on host byte order
  else if opc = 0xd4 then .hostEndian opc
  else if opc = 0xdc then .hostEndian opc
  -- ADD64_IMM: reg[dst].wrapping_add(insn.imm as u64)
  else if opc = 0x07 then
    .ok (setReg reg d ((reg d + toU64 insn.imm) % 18446744073709551616)) ip
  -- ADD64_REG
  else if opc = 0x0f then
    .ok (setReg reg d ((reg d + reg s) % 18446744073709551616)) ip
  -- SUB64_IMM: reg[dst].wrapping_sub(insn.imm as u64)
  else if opc = 0x17 then
    .ok (setReg reg d (toU64 ((reg d : Int) - (toU64 insn.imm : Int)))) ip
  -- SUB64_REG
  else if opc = 0x1f then
    .ok (setReg reg d (toU64 ((reg d : Int) - (reg s : Int)))) ip
  -- MUL64_IMM
  else if opc = 0x27 then
    .ok (setReg reg d ((reg d * toU64 insn.imm) % 18446744073709551616)) ip
  -- MUL64_REG
  else if opc = 0x2f then
    .ok (setReg reg d ((reg d * reg s) % 18446744073709551616)) ip
  -- DIV64_IMM: reg[dst] /= insn.imm as u64; Rust / aborts on 0
  else if opc = 0x37 then
    (if toU64 insn.imm = 0 then .fatal .divisionByZeroIntrinsic
     else .ok (setReg reg d (reg d / toU64 insn.imm)) ip)
  -- DIV64_REG: explicit check, then u64 division
  else if opc = 0x3f then
    (if reg s = 0 then .fatal .divisionByZeroExplicit
     else .ok (setReg reg d (reg d / reg s)) ip)
  -- OR64_IMM
  else if opc = 0x47 then .ok (setReg reg d (reg d ||| toU64 insn.imm)) ip
  -- OR64_REG
  else if opc = 0x4f then .ok (setReg reg d (reg d ||| reg s)) ip
  -- AND64_IMM
  else if opc = 0x57 then .ok (setReg reg d (reg d &&& toU64 insn.imm)) ip
  -- AND64_REG
  else if opc = 0x5f then .ok (setReg reg d (reg d &&& reg s)) ip
  -- LSH64_IMM: reg[dst] <<= insn.imm as u64; shift count masked to 6 bits
  else if opc = 0x67 then
    .ok (setReg reg d ((reg d <<< (toU64 insn.imm % 64)) %
      18446744073709551616)) ip
  -- LSH64_REG
  else if opc = 0x6f then
    .ok (setReg reg d ((reg d <<< (reg s % 64)) % 18446744073709551616)) ip
  -- RSH64_IMM
  else if opc = 0x77 then .ok (setReg reg d (reg d >>> (toU64 insn.imm % 64))) ip
  -- RSH64_REG
  else if opc = 0x7f then .ok (setReg reg d (reg d >>> (reg s % 64))) ip
  -- NEG64: -(reg[dst] as i64) as u64
  else if opc = 0x87 then .ok (setReg reg d (toU64 (-(toI64 (reg d))))) ip
  -- MOD64_IMM
  else if opc = 0x97 then
    (if toU64 insn.imm = 0 then .fatal .divisionByZeroIntrinsic
     else .ok (setReg reg d (reg d % toU64 insn.imm)) ip)
  -- MOD64_REG
  else if opc = 0x9f then
    (if reg s = 0 then .fatal .divisionByZeroExplicit
     else .ok (setReg reg d (reg d % reg s)) ip)
  -- XOR64_IMM
  else if opc = 0xa7 then .ok (setReg reg d (reg d ^^^ toU64 insn.imm)) ip
  -- XOR64_REG
  else if opc = 0xaf then .ok (setReg reg d (reg d ^^^ reg s)) ip
  -- MOV64_IMM
  else if opc = 0xb7 then .ok (setReg reg d (toU64 insn.imm)) ip
  -- MOV64_REG
  else if opc = 0xbf then .ok (setReg reg d (reg s)) ip
  -- ARSH64_IMM: (reg[dst] as i64 >> insn.imm) as u64; count masked to 6 bits
  else if opc = 0xc7 then
    .ok (setReg reg d (toU64 (arsh (toI64 (reg d)) (toU32 insn.imm % 64)))) ip
  -- ARSH64_REG
  else if opc = 0xcf then
    .ok (setReg reg d (toU64 (arsh (toI64 (reg d)) (reg s % 64)))) ip
  -- JA: unconditional branch
  else if opc = 0x05 then .ok reg (jmpTarget ip insn.off)
  -- JEQ_IMM
  else if opc = 0x15 then
    (if reg d = toU64 insn.imm then .ok reg (jmpTarget ip insn.off)
     else .ok reg ip)
  -- JEQ_REG
  else if opc = 0x1d then
    (if reg d = reg s then .ok reg (jmpTarget ip insn.off) else .ok reg ip)
  -- JGT_IMM
  else if opc = 0x25 then
    (if reg d > toU64 insn.imm then .ok reg (jmpTarget ip insn.off)
     else .ok reg ip)
  -- JGT_REG
  else if opc = 0x2d then
    (if reg d > reg s then .ok reg (jmpTarget ip insn.off) else .ok reg ip)
  -- JGE_IMM
  else if opc = 0x35 then
    (if reg d ≥ toU64 insn.imm then .ok reg (jmpTarget ip insn.off)
     else .ok reg ip)
  -- JGE_REG
  else if opc = 0x3d then
    (if reg d ≥ reg s then .ok reg (jmpTarget ip insn.off) else .ok reg ip)
  -- JSET_IMM
  else if opc = 0x45 then
    (if reg d &&& toU64 insn.imm ≠ 0 then .ok reg (jmpTarget ip insn.off)
     else .ok reg ip)
  -- JSET_REG
  else if opc = 0x4d then
    (if reg d &&& reg s ≠ 0 then .ok reg (jmpTarget ip insn.off)
     else .ok reg ip)
  -- JNE_IMM
  else if opc = 0x55 then
    (if reg d ≠ toU64 insn.imm then .ok reg (jmpTarget ip insn.off)
     else .ok reg ip)
  -- JNE_REG
  else if opc = 0x5d then
    (if reg d ≠ reg s then .ok reg (jmpTarget ip insn.off) else .ok reg ip)
  -- JSGT_IMM: signed comparison, reg[dst] as i64 > insn.imm as i64
  else if opc = 0x65 then
    (if sgt (toI64 (reg d)) insn.imm then .ok reg (jmpTarget ip insn.off)
     else .ok reg ip)
  -- JSGT_REG
  else if opc = 0x6d then
    (if sgt (toI64 (reg d)) (toI64 (reg s)) then .ok reg (jmpTarget ip insn.off)
     else .ok reg ip)
  -- JSGE_IMM
  else if opc = 0x75 then
    (if sge (toI64 (reg d)) insn.imm then .ok reg (jmpTarget ip insn.off)
     else .ok reg ip)
  -- JSGE_REG
  else if opc = 0x7d then
    (if sge (toI64 (reg d)) (toI64 (reg s)) then .ok reg (jmpTarget ip insn.off)
     else .ok reg ip)
  -- CALL: look up insn.imm as u32 in the helper table at execution time
  else if opc = 0x85 then
    (match helpers (toU32 insn.imm) with
     | some f =>
         .ok (setReg reg 0 (f (reg 1) (reg 2) (reg 3) (reg 4) (reg 5) %
           18446744073709551616)) ip
     | none => .fatal .unknownHelper)
  -- TAIL_CALL aborts (unimplemented)
  else if opc = 0xc5 then .fatal .unimplementedOpcode
  -- EXIT: return reg[0]
  else if opc = 0x95 then .halt (reg 0)
  -- unrecognised opcode byte
  else .fatal .unknownOpcode

/-- Modelled from the spec: the stack constant ebpf::STACK_SIZE used by
prog_exec (section 3: a fixed 512-byte region). -/
def STACK_SIZE : Nat := 512

/-- The entry register file built at the top of EbpfVmMbuff::prog_exec:
all registers zero, then r10 = stack base + stack length (wrapping u64
addition of two host values), then r1 = mbuff base if the metadata
buffer is non-empty, else packet base if the packet is non-empty, else
left zero. -/
def initRegs (mbuffBase mbuffLen memBase memLen stackBase stackLen : Nat) :
    RegFile :=
  let base : RegFile := fun i =>
    if i = 10 then (stackBase + stackLen) % 18446744073709551616 else 0
  if 0 < mbuffLen then setReg base 1 mbuffBase
  else if 0 < memLen then setReg base 1 memBase
  else base

/-- The memory guard EbpfVmMbuff::check_mem, true when the access is
allowed and false when the guard aborts with the out-of-bounds fault.
Each region test is `base <= addr && addr + len <= base + region_len`
on u64 values; the two sums are wrapping u64 additions, modelled by the
explicit remainders. -/
def check_mem (addr len mbuffBase mbuffLen memBase memLen stackBase stackLen :
    Nat) : Bool :=
  if mbuffBase ≤ addr ∧
      (addr + len) % 18446744073709551616 ≤
        (mbuffBase + mbuffLen) % 18446744073709551616 then true
  else if memBase ≤ addr ∧
      (addr + len) % 18446744073709551616 ≤
        (memBase + memLen) % 18446744073709551616 then true
  else if stackBase ≤ addr ∧
      (addr + len) % 18446744073709551616 ≤
        (stackBase + stackLen) % 18446744073709551616 then true
  else false

/-- Modelled from the spec: the acceptance condition claimed for the
memory guard — some region (B, N) satisfies B ≤ A and A + L ≤ B + N in
exact unsigned 64-bit arithmetic with no wraparound, and an access whose
A + L overflows 64 bits is rejected. -/
def specAccepts (addr len mbuffBase mbuffLen memBase memLen stackBase stackLen :
    Nat) : Bool :=
  decide (addr + len < 18446744073709551616 ∧
    ((mbuffBase ≤ addr ∧ addr + len ≤ mbuffBase + mbuffLen) ∨
     (memBase ≤ addr ∧ addr + len ≤ memBase + memLen) ∨
     (stackBase ≤ addr ∧ addr + len ≤ stackBase + stackLen)))

/-- A helper function used to instantiate theorems at concrete inputs:
adds its five arguments as u64. -/
def demoHelperFn : HelperFn :=
  fun a b c d e => (a + b + c + d + e) % 18446744073709551616

/-- A helper table holding demoHelperFn under key 0 and nothing else. -/
def demoHelpers : Nat → Option HelperFn :=
  fun k => if k = 0 then some demoHelperFn else none

/-- A register file with reg[i] = i, for concrete instantiations. -/
def demoRegs : RegFile := fun i => (i : Nat)

/-- A register file whose r1 is 2^32 (low 32 bits zero, upper bits
non-zero) and whose other registers are 7, for concrete
instantiations. -/
def lowZeroRegs : RegFile := fun i => if i = 1 then 4294967296 else 7

/-- A no-op filler instruction for the `next` slot when the instruction
under test is not LD_DW_IMM. -/
def nopInsn : Insn := ⟨0, 0, 0, 0, 0⟩

/-- A u32 cast always lies below 2^32. -/
theorem toU32_lt (z : Int) : toU32 z < 4294967296 := by
  unfold toU32; omega

/-- The low 32 bits of a u64 cast agree with the u32 cast. -/
theorem toU64_mod_u32 (z : Int) : toU64 z % 4294967296 = toU32 z := by
  unfold toU64 toU32; omega

/-- When the index after the branch fits in i16 and the branch target is
a non-negative index that also fits in i16, the interpreter's branch
target computation yields exactly index-after-branch plus offset. -/
theorem jmpTarget_exact (ip : Nat) (off : Int) (h1 : ip < 32768)
    (h4 : 0 ≤ (ip : Int) + off) (h5 : (ip : Int) + off < 32768) :
    jmpTarget ip off = ((ip : Int) + off).toNat := by
  simp only [jmpTarget, wrapI16, toU64]
  omega

/-- The u32 cast of a small non-negative value is the value itself. -/
theorem toU32_cast_lt (k : Nat) (h : k < 4294967296) : toU32 (k : Int) = k := by
  unfold toU32; omega

/-- The u64 cast of a small non-negative value is the value itself. -/
theorem toU64_cast_lt (k : Nat) (h : k < 18446744073709551616) :
    toU64 (k : Int) = k := by
  unfold toU64; omega

/-- Pre-masking a 32-bit immediate shift count does not change the count
the interpreter applies. -/
theorem cnt32_imm (z : Int) :
    toU32 ((toU32 z % 32 : Nat) : Int) % 32 = toU32 z % 32 := by
  rw [toU32_cast_lt _ (by omega)]; omega

/-- The count applied by a 32-bit register shift equals the count of the
immediate form whose immediate is the source value modulo 32. -/
theorem cnt32_reg (n : Nat) :
    toU32 ((n % 32 : Nat) : Int) % 32 = n % 4294967296 % 32 := by
  rw [toU32_cast_lt _ (by omega)]; omega

/-- Pre-masking a 64-bit immediate shift count does not change the count
the interpreter applies. -/
theorem cnt64_imm (z : Int) :
    toU64 ((toU64 z % 64 : Nat) : Int) % 64 = toU64 z % 64 := by
  rw [toU64_cast_lt _ (by omega)]; omega

/-- The count applied by a 64-bit register shift equals the count of the
immediate form whose immediate is the source value modulo 64. -/
theorem cnt64_reg (n : Nat) :
    toU64 ((n % 64 : Nat) : Int) % 64 = n % 64 := by
  rw [toU64_cast_lt _ (by omega)]; omega

/-- Pre-masking the immediate count of a 64-bit arithmetic shift (whose
count is the immediate cast to u32, masked to 6 bits) does not change
the count the interpreter applies. -/
theorem cnt64_arsh_imm (z : Int) :
    toU32 ((toU32 z % 64 : Nat) : Int) % 64 = toU32 z % 64 := by
  rw [toU32_cast_lt _ (by omega)]; omega

/-- The count applied by ARSH64_REG equals the count of ARSH64_IMM with
the source value modulo 64 as immediate. -/
theorem cnt64_arsh_reg (n : Nat) :
    toU32 ((n % 64 : Nat) : Int) % 64 = n % 64 := by
  rw [toU32_cast_lt _ (by omega)]; omega

section ArmLemmas

variable (helpers : Nat → Option HelperFn) (reg : RegFile) (ip : Nat)
variable (d s : Fin 11) (off imm : Int) (nx : Insn)

/-- Dispatch arm DIV32_IMM. -/
theorem execStep_div32_imm :
    execStep helpers reg ip ⟨0x34, d, s, off, imm⟩ nx =
      (if toU32 imm = 0 then .fatal .divisionByZeroIntrinsic
       else .ok (setReg reg d (reg d % 4294967296 / toU32 imm)) ip) := rfl

/-- Dispatch arm DIV32_REG. -/
theorem execStep_div32_reg :
    execStep helpers reg ip ⟨0x3c, d, s, off, imm⟩ nx =
      (if reg s = 0 then .fatal .divisionByZeroExplicit
       else if reg s % 4294967296 = 0 then .fatal .divisionByZeroIntrinsic
       else .ok (setReg reg d (reg d % 4294967296 / (reg s % 4294967296))) ip) := rfl

/-- Dispatch arm MOD32_IMM. -/
theorem execStep_mod32_imm :
    execStep helpers reg ip ⟨0x94, d, s, off, imm⟩ nx =
      (if toU32 imm = 0 then .fatal .divisionByZeroIntrinsic
       else .ok (setReg reg d (reg d % 4294967296 % toU32 imm)) ip) := rfl

/-- Dispatch arm MOD32_REG. -/
theorem execStep_mod32_reg :
    execStep helpers reg ip ⟨0x9c, d, s, off, imm⟩ nx =
      (if reg s = 0 then .fatal .divisionByZeroExplicit
       else if reg s % 4294967296 = 0 then .fatal .divisionByZeroIntrinsic
       else .ok (setReg reg d (reg d % 4294967296 % (reg s % 4294967296))) ip) := rfl

/-- Dispatch arm DIV64_IMM. -/
theorem execStep_div64_imm :
    execStep helpers reg ip ⟨0x37, d, s, off, imm⟩ nx =
      (if toU64 imm = 0 then .fatal .divisionByZeroIntrinsic
       else .ok (setReg reg d (reg d / toU64 imm)) ip) := rfl

/-- Dispatch arm DIV64_REG. -/
theorem execStep_div64_reg :
    execStep helpers reg ip ⟨0x3f, d, s, off, imm⟩ nx =
      (if reg s = 0 then .fatal .divisionByZeroExplicit
       else .ok (setReg reg d (reg d / reg s)) ip) := rfl

/-- Dispatch arm MOD64_IMM. -/
theorem execStep_mod64_imm :
    execStep helpers reg ip ⟨0x97, d, s, off, imm⟩ nx =
      (if toU64 imm = 0 then .fatal .divisionByZeroIntrinsic
       else .ok (setReg reg d (reg d % toU64 imm)) ip) := rfl

/-- Dispatch arm MOD64_REG. -/
theorem execStep_mod64_reg :
    execStep helpers reg ip ⟨0x9f, d, s, off, imm⟩ nx =
      (if reg s = 0 then .fatal .divisionByZeroExplicit
       else .ok (setReg reg d (reg d % reg s)) ip) := rfl

/-- Dispatch arm LSH32_IMM. -/
theorem execStep_lsh32_imm :
    execStep helpers reg ip ⟨0x64, d, s, off, imm⟩ nx =
      .ok (setReg reg d (((reg d % 4294967296) <<< (toU32 imm % 32)) %
        4294967296)) ip := rfl

/-- Dispatch arm LSH32_REG. -/
theorem execStep_lsh32_reg :
    execStep helpers reg ip ⟨0x6c, d, s, off, imm⟩ nx =
      .ok (setReg reg d (((reg d % 4294967296) <<< (reg s % 4294967296 % 32)) %
        4294967296)) ip := rfl

/-- Dispatch arm RSH32_IMM. -/
theorem execStep_rsh32_imm :
    execStep helpers reg ip ⟨0x74, d, s, off, imm⟩ nx =
      .ok (setReg reg d ((reg d % 4294967296) >>> (toU32 imm % 32))) ip := rfl

/-- Dispatch arm RSH32_REG. -/
theorem execStep_rsh32_reg :
    execStep helpers reg ip ⟨0x7c, d, s, off, imm⟩ nx =
      .ok (setReg reg d ((reg d % 4294967296) >>> (reg s % 4294967296 % 32))) ip := rfl

/-- Dispatch arm ARSH32_IMM. -/
theorem execStep_arsh32_imm :
    execStep helpers reg ip ⟨0xc4, d, s, off, imm⟩ nx =
      .ok (setReg reg d (toU64 (arsh (toI32 (reg d)) (toU32 imm % 32)) %
        4294967296)) ip := rfl

/-- Dispatch arm ARSH32_REG. -/
theorem execStep_arsh32_reg :
    execStep helpers reg ip ⟨0xcc, d, s, off, imm⟩ nx =
      .ok (setReg reg d (toU64 (arsh (toI32 (reg d)) (reg s % 4294967296 % 32)) %
        4294967296)) ip := rfl

/-- Dispatch arm LSH64_IMM. -/
theorem execStep_lsh64_imm :
    execStep helpers reg ip ⟨0x67, d, s, off, imm⟩ nx =
      .ok (setReg reg d ((reg d <<< (toU64 imm % 64)) %
        18446744073709551616)) ip := rfl

/-- Dispatch arm LSH64_REG. -/
theorem execStep_lsh64_reg :
    execStep helpers reg ip ⟨0x6f, d, s, off, imm⟩ nx =
      .ok (setReg reg d ((reg d <<< (reg s % 64)) % 18446744073709551616)) ip := rfl

/-- Dispatch arm RSH64_IMM. -/
theorem execStep_rsh64_imm :
    execStep helpers reg ip ⟨0x77, d, s, off, imm⟩ nx =
      .ok (setReg reg d (reg d >>> (toU64 imm % 64))) ip := rfl

/-- Dispatch arm RSH64_REG. -/
theorem execStep_rsh64_reg :
    execStep helpers reg ip ⟨0x7f, d, s, off, imm⟩ nx =
      .ok (setReg reg d (reg d >>> (reg s % 64))) ip := rfl

/-- Dispatch arm ARSH64_IMM. -/
theorem execStep_arsh64_imm :
    execStep helpers reg ip ⟨0xc7, d, s, off, imm⟩ nx =
      .ok (setReg reg d (toU64 (arsh (toI64 (reg d)) (toU32 imm % 64)))) ip := rfl

/-- Dispatch arm ARSH64_REG. -/
theorem execStep_arsh64_reg :
    execStep helpers reg ip ⟨0xcf, d, s, off, imm⟩ nx =
      .ok (setReg reg d (toU64 (arsh (toI64 (reg d)) (reg s % 64)))) ip := rfl

/-- Dispatch arm JA. -/
theorem execStep_ja :
    execStep helpers reg ip ⟨0x05, d, s, off, imm⟩ nx =
      .ok reg (jmpTarget ip off) := rfl

/-- Dispatch arm JEQ_IMM. -/
theorem execStep_jeq_imm :
    execStep helpers reg ip ⟨0x15, d, s, off, imm⟩ nx =
      (if reg d = toU64 imm then .ok reg (jmpTarget ip off) else .ok reg ip) := rfl

/-- Dispatch arm JEQ_REG. -/
theorem execStep_jeq_reg :
    execStep helpers reg ip ⟨0x1d, d, s, off, imm⟩ nx =
      (if reg d = reg s then .ok reg (jmpTarget ip off) else .ok reg ip) := rfl

/-- Dispatch arm JGT_IMM. -/
theorem execStep_jgt_imm :
    execStep helpers reg ip ⟨0x25, d, s, off, imm⟩ nx =
      (if reg d > toU64 imm then .ok reg (jmpTarget ip off) else .ok reg ip) := rfl

/-- Dispatch arm JGT_REG. -/
theorem execStep_jgt_reg :
    execStep helpers reg ip ⟨0x2d, d, s, off, imm⟩ nx =
      (if reg d > reg s then .ok reg (jmpTarget ip off) else .ok reg ip) := rfl

/-- Dispatch arm JGE_IMM. -/
theorem execStep_jge_imm :
    execStep helpers reg ip ⟨0x35, d, s, off, imm⟩ nx =
      (if reg d ≥ toU64 imm then .ok reg (jmpTarget ip off) else .ok reg ip) := rfl

/-- Dispatch arm JGE_REG. -/
theorem execStep_jge_reg :
    execStep helpers reg ip ⟨0x3d, d, s, off, imm⟩ nx =
      (if reg d ≥ reg s then .ok reg (jmpTarget ip off) else .ok reg ip) := rfl

/-- Dispatch arm JSET_IMM. -/
theorem execStep_jset_imm :
    execStep helpers reg ip ⟨0x45, d, s, off, imm⟩ nx =
      (if reg d &&& toU64 imm ≠ 0 then .ok reg (jmpTarget ip off)
       else .ok reg ip) := rfl

/-- Dispatch arm JSET_REG. -/
theorem execStep_jset_reg :
    execStep helpers reg ip ⟨0x4d, d, s, off, imm⟩ nx =
      (if reg d &&& reg s ≠ 0 then .ok reg (jmpTarget ip off)
       else .ok reg ip) := rfl

/-- Dispatch arm JNE_IMM. -/
theorem execStep_jne_imm :
    execStep helpers reg ip ⟨0x55, d, s, off, imm⟩ nx =
      (if reg d ≠ toU64 imm then .ok reg (jmpTarget ip off) else .ok reg ip) := rfl

/-- Dispatch arm JNE_REG. -/
theorem execStep_jne_reg :
    execStep helpers reg ip ⟨0x5d, d, s, off, imm⟩ nx =
      (if reg d ≠ reg s then .ok reg (jmpTarget ip off) else .ok reg ip) := rfl

/-- Dispatch arm JSGT_IMM. -/
theorem execStep_jsgt_imm :
    execStep helpers reg ip ⟨0x65, d, s, off, imm⟩ nx =
      (if sgt (toI64 (reg d)) imm then .ok reg (jmpTarget ip off)
       else .ok reg ip) := rfl

/-- Dispatch arm JSGT_REG. -/
theorem execStep_jsgt_reg :
    execStep helpers reg ip ⟨0x6d, d, s, off, imm⟩ nx =
      (if sgt (toI64 (reg d)) (toI64 (reg s)) then .ok reg (jmpTarget ip off)
       else .ok reg ip) := rfl

/-- Dispatch arm JSGE_IMM. -/
theorem execStep_jsge_imm :
    execStep helpers reg ip ⟨0x75, d, s, off, imm⟩ nx =
      (if sge (toI64 (reg d)) imm then .ok reg (jmpTarget ip off)
       else .ok reg ip) := rfl

/-- Dispatch arm JSGE_REG. -/
theorem execStep_jsge_reg :
    execStep helpers reg ip ⟨0x7d, d, s, off, imm⟩ nx =
      (if sge (toI64 (reg d)) (toI64 (reg s)) then .ok reg (jmpTarget ip off)
       else .ok reg ip) := rfl

/-- Dispatch arm CALL. -/
theorem execStep_call :
    execStep helpers reg ip ⟨0x85, d, s, off, imm⟩ nx =
      (match helpers (toU32 imm) with
       | some f =>
           .ok (setReg reg 0 (f (reg 1) (reg 2) (reg 3) (reg 4) (reg 5) %
             18446744073709551616)) ip
       | none => .fatal .unknownHelper) := rfl

/-- Dispatch arm LD_DW_IMM. -/
theorem execStep_lddw :
    execStep helpers reg ip ⟨0x18, d, s, off, imm⟩ nx =
      .ok (setReg reg d ((toU32 imm +
        ((toU64 nx.imm) <<< 32) % 18446744073709551616) %
          18446744073709551616)) (ip + 1) := rfl

end ArmLemmas

/-- Claim C1 (code bug): the claim states that every 32-bit ALU
instruction zero-extends its 32-bit result into the 64-bit destination,
so the upper 32 bits of reg[dst] are zero afterwards.  The code instead
casts the i32 result of ADD32, SUB32, MUL32 (immediate and register
forms) and MOV32_IMM to u64, which sign-extends: ADD32_IMM on
reg[dst] = 0 with immediate -1 leaves reg[dst] = 0xFFFFFFFFFFFFFFFF,
whose upper 32 bits are all ones. -/
theorem claim1_add32_sign_extends :
    (execStep (fun _ => none) (fun _ => 0) 1 ⟨0x04, 0, 0, 0, -1⟩ nopInsn).getReg 0 =
      18446744073709551615 ∧
    (execStep (fun _ => none) (fun _ => 0) 1 ⟨0x04, 0, 0, 0, -1⟩ nopInsn).getReg 0 /
      4294967296 ≠ 0 := by decide

/-- Claim C2 (counterexample): the claim states that an access whose
A + L overflows 64 bits is rejected.  With A = 2^64 - 1 and L = 2 the
guard computes the wrapped sum 1, which lies below the stack region's
base + length, so the access is accepted although the claimed condition
rejects it. -/
theorem claim2_overflow_cex :
    check_mem 18446744073709551615 2 0 0 0 0 100 512 = true ∧
    specAccepts 18446744073709551615 2 0 0 0 0 100 512 = false := by decide

/-- Claim C2 (amended): when neither A + L nor any region's base +
length wraps 64 bits, the guard accepts the access exactly when some
region (B, N) satisfies B ≤ A and A + L ≤ B + N; in particular an
access ending exactly at a region's base + length succeeds and one byte
past it fails. -/
theorem claim2_check_mem_amended (addr len mbB mbL meB meL stB stL : Nat)
    (h0 : addr + len < 18446744073709551616)
    (h1 : mbB + mbL < 18446744073709551616)
    (h2 : meB + meL < 18446744073709551616)
    (h3 : stB + stL < 18446744073709551616) :
    check_mem addr len mbB mbL meB meL stB stL = true ↔
      ((mbB ≤ addr ∧ addr + len ≤ mbB + mbL) ∨
       (meB ≤ addr ∧ addr + len ≤ meB + meL) ∨
       (stB ≤ addr ∧ addr + len ≤ stB + stL)) := by
  unfold check_mem
  rw [Nat.mod_eq_of_lt h0, Nat.mod_eq_of_lt h1, Nat.mod_eq_of_lt h2,
      Nat.mod_eq_of_lt h3]
  split_ifs with ha hb hc <;> simp_all

/-- Witness for the amended claim C2: a 4-byte access ending exactly at
the stack boundary 100 + 512, instantiating the theorem at concrete
regions. -/
theorem claim2_witness :
    check_mem 608 4 0 0 0 0 100 512 = true ↔
      ((0 ≤ 608 ∧ 608 + 4 ≤ 0 + 0) ∨ (0 ≤ 608 ∧ 608 + 4 ≤ 0 + 0) ∨
       (100 ≤ 608 ∧ 608 + 4 ≤ 100 + 512)) :=
  claim2_check_mem_amended 608 4 0 0 0 0 100 512 (by norm_num) (by norm_num)
    (by norm_num) (by norm_num)

/-- Claim C6: LD_DW_IMM advances the instruction pointer once more (two
slots in total, counting the increment done by the fetch), and the
value written to reg[dst] has the first slot's immediate, zero-extended,
as its low 32 bits and the next slot's immediate as its high 32 bits.
With next-slot immediate 0xFFFFFFFF (the i32 value -1) the high half is
0xFFFFFFFF, an instance of the general statement. -/
theorem claim6_lddw (helpers : Nat → Option HelperFn) (reg : RegFile) (ip : Nat)
    (d s : Fin 11) (off imm : Int) (nx : Insn) :
    (execStep helpers reg ip ⟨0x18, d, s, off, imm⟩ nx).getIp = ip + 1 ∧
    (execStep helpers reg ip ⟨0x18, d, s, off, imm⟩ nx).getReg d % 4294967296 =
      toU32 imm ∧
    (execStep helpers reg ip ⟨0x18, d, s, off, imm⟩ nx).getReg d / 4294967296 =
      toU32 nx.imm := by
  have hb : ((toU64 nx.imm) <<< 32) % 18446744073709551616 =
      toU32 nx.imm * 4294967296 := by
    rw [Nat.shiftLeft_eq, show (2 : Nat) ^ 32 = 4294967296 by norm_num,
        show (18446744073709551616 : Nat) = 4294967296 * 4294967296 by norm_num,
        Nat.mul_mod_mul_right, toU64_mod_u32]
  have ha := toU32_lt imm
  have hc := toU32_lt nx.imm
  rw [execStep_lddw]
  refine ⟨rfl, ?_, ?_⟩
  · simp [StepResult.getReg, setReg, hb]
    omega
  · simp [StepResult.getReg, setReg, hb]
    omega

/-- Claim C7: at the start of every execution r0..r9 are zero except
possibly r1, r10 is the stack base plus the stack length, and r1 is the
mbuff base if the mbuff is non-empty, else the packet base if the packet
is non-empty, else zero. -/
theorem claim7_entry_state (mbuffBase mbuffLen memBase memLen stackBase
    stackLen : Nat) (h : stackBase + stackLen < 18446744073709551616) :
    (∀ i : Fin 11, i ≠ 1 → i ≠ 10 →
      initRegs mbuffBase mbuffLen memBase memLen stackBase stackLen i = 0) ∧
    initRegs mbuffBase mbuffLen memBase memLen stackBase stackLen 10 =
      stackBase + stackLen ∧
    initRegs mbuffBase mbuffLen memBase memLen stackBase stackLen 1 =
      (if 0 < mbuffLen then mbuffBase
       else if 0 < memLen then memBase else 0) := by
  refine ⟨?_, ?_, ?_⟩
  · intro i h1 h10
    unfold initRegs
    split_ifs <;> simp [setReg, h1, h10]
  · unfold initRegs
    split_ifs <;> simp [setReg, Nat.mod_eq_of_lt h]
  · unfold initRegs
    split_ifs <;> simp [setReg]

/-- Witness for claim C7: empty mbuff, 4-byte packet at base 77, stack
at 1000 of length 512 — r5 = 0, r10 = 1512, r1 = 77. -/
theorem claim7_witness :
    initRegs 0 0 77 4 1000 512 5 = 0 ∧ initRegs 0 0 77 4 1000 512 10 = 1512 ∧
    initRegs 0 0 77 4 1000 512 1 = 77 := by
  have h := claim7_entry_state 0 0 77 4 1000 512 (by norm_num)
  refine ⟨h.1 5 (by decide) (by decide), ?_, ?_⟩
  · have h2 := h.2.1
    norm_num at h2
    exact h2
  · have h3 := h.2.2
    norm_num at h3
    exact h3

/-- Claim C3: for each division and modulus instruction (both widths,
immediate and register form), a zero divisor at the instruction's width
makes the step a fatal division-by-zero abort, and a non-zero divisor
yields the unsigned quotient or remainder at that width.  The divisor
is the immediate cast to the width (u32 for the 32-bit forms, u64 for
the 64-bit forms) or the source register truncated to the width. -/
theorem claim3_div_mod_by_zero (helpers : Nat → Option HelperFn) (reg : RegFile)
    (ip : Nat) (d s : Fin 11) (off imm : Int) (nx : Insn) :
    ((toU32 imm = 0 →
        (execStep helpers reg ip ⟨0x34, d, s, off, imm⟩ nx).isDivZeroFatal = true) ∧
     (toU32 imm ≠ 0 →
        execStep helpers reg ip ⟨0x34, d, s, off, imm⟩ nx =
          .ok (setReg reg d (reg d % 4294967296 / toU32 imm)) ip)) ∧
    ((reg s % 4294967296 = 0 →
        (execStep helpers reg ip ⟨0x3c, d, s, off, imm⟩ nx).isDivZeroFatal = true) ∧
     (reg s % 4294967296 ≠ 0 →
        execStep helpers reg ip ⟨0x3c, d, s, off, imm⟩ nx =
          .ok (setReg reg d (reg d % 4294967296 / (reg s % 4294967296))) ip)) ∧
    ((toU32 imm = 0 →
        (execStep helpers reg ip ⟨0x94, d, s, off, imm⟩ nx).isDivZeroFatal = true) ∧
     (toU32 imm ≠ 0 →
        execStep helpers reg ip ⟨0x94, d, s, off, imm⟩ nx =
          .ok (setReg reg d (reg d % 4294967296 % toU32 imm)) ip)) ∧
    ((reg s % 4294967296 = 0 →
        (execStep helpers reg ip ⟨0x9c, d, s, off, imm⟩ nx).isDivZeroFatal = true) ∧
     (reg s % 4294967296 ≠ 0 →
        execStep helpers reg ip ⟨0x9c, d, s, off, imm⟩ nx =
          .ok (setReg reg d (reg d % 4294967296 % (reg s % 4294967296))) ip)) ∧
    ((toU64 imm = 0 →
        (execStep helpers reg ip ⟨0x37, d, s, off, imm⟩ nx).isDivZeroFatal = true) ∧
     (toU64 imm ≠ 0 →
        execStep helpers reg ip ⟨0x37, d, s, off, imm⟩ nx =
          .ok (setReg reg d (reg d / toU64 imm)) ip)) ∧
    ((reg s = 0 →
        (execStep helpers reg ip ⟨0x3f, d, s, off, imm⟩ nx).isDivZeroFatal = true) ∧
     (reg s ≠ 0 →
        execStep helpers reg ip ⟨0x3f, d, s, off, imm⟩ nx =
          .ok (setReg reg d (reg d / reg s)) ip)) ∧
    ((toU64 imm = 0 →
        (execStep helpers reg ip ⟨0x97, d, s, off, imm⟩ nx).isDivZeroFatal = true) ∧
     (toU64 imm ≠ 0 →
        execStep helpers reg ip ⟨0x97, d, s, off, imm⟩ nx =
          .ok (setReg reg d (reg d % toU64 imm)) ip)) ∧
    ((reg s = 0 →
        (execStep helpers reg ip ⟨0x9f, d, s, off, imm⟩ nx).isDivZeroFatal = true) ∧
     (reg s ≠ 0 →
        execStep helpers reg ip ⟨0x9f, d, s, off, imm⟩ nx =
          .ok (setReg reg d (reg d % reg s)) ip)) := by
  refine ⟨⟨?_, ?_⟩, ⟨?_, ?_⟩, ⟨?_, ?_⟩, ⟨?_, ?_⟩, ⟨?_, ?_⟩, ⟨?_, ?_⟩,
    ⟨?_, ?_⟩, ⟨?_, ?_⟩⟩
  · intro h
    rw [execStep_div32_imm, if_pos h]
    rfl
  · intro h
    rw [execStep_div32_imm, if_neg h]
  · intro h
    rw [execStep_div32_reg]
    by_cases hs : reg s = 0
    · rw [if_pos hs]
      rfl
    · rw [if_neg hs, if_pos h]
      rfl
  · intro h
    have hs : reg s ≠ 0 := fun e => h (by rw [e])
    rw [execStep_div32_reg, if_neg hs, if_neg h]
  · intro h
    rw [execStep_mod32_imm, if_pos h]
    rfl
  · intro h
    rw [execStep_mod32_imm, if_neg h]
  · intro h
    rw [execStep_mod32_reg]
    by_cases hs : reg s = 0
    · rw [if_pos hs]
      rfl
    · rw [if_neg hs, if_pos h]
      rfl
  · intro h
    have hs : reg s ≠ 0 := fun e => h (by rw [e])
    rw [execStep_mod32_reg, if_neg hs, if_neg h]
  · intro h
    rw [execStep_div64_imm, if_pos h]
    rfl
  · intro h
    rw [execStep_div64_imm, if_neg h]
  · intro h
    rw [execStep_div64_reg, if_pos h]
    rfl
  · intro h
    rw [execStep_div64_reg, if_neg h]
  · intro h
    rw [execStep_mod64_imm, if_pos h]
    rfl
  · intro h
    rw [execStep_mod64_imm, if_neg h]
  · intro h
    rw [execStep_mod64_reg, if_pos h]
    rfl
  · intro h
    rw [execStep_mod64_reg, if_neg h]

/-- Witness for claim C3: DIV32_IMM with immediate 0 is a fatal
division-by-zero, and DIV64_REG with source r1 = 1 divides. -/
theorem claim3_witness :
    (execStep (fun _ => none) demoRegs 1 ⟨0x34, 0, 1, 0, 0⟩ nopInsn).isDivZeroFatal =
      true ∧
    execStep (fun _ => none) demoRegs 1 ⟨0x3f, 0, 1, 0, 0⟩ nopInsn =
      .ok (setReg demoRegs 0 (demoRegs 0 / demoRegs 1)) 1 := by
  refine ⟨?_, ?_⟩
  · exact (claim3_div_mod_by_zero (fun _ => none) demoRegs 1 0 1 0 0
      nopInsn).1.1 (by decide)
  · exact (claim3_div_mod_by_zero (fun _ => none) demoRegs 1 0 1 0 0
      nopInsn).2.2.2.2.2.1.2 (by decide)

/-- Claim C10: DIV32_REG and MOD32_REG raise the explicit
division-by-zero abort exactly when the full 64-bit source register is
zero; a source whose low 32 bits are zero but whose upper bits are not
passes that check, and the u32 division then performed aborts through
the language's own division-by-zero check instead. -/
theorem claim10_div32_reg_check (helpers : Nat → Option HelperFn) (reg : RegFile)
    (ip : Nat) (d s : Fin 11) (off imm : Int) (nx : Insn) :
    ((execStep helpers reg ip ⟨0x3c, d, s, off, imm⟩ nx =
        .fatal .divisionByZeroExplicit ↔ reg s = 0) ∧
     (reg s ≠ 0 → reg s % 4294967296 = 0 →
        execStep helpers reg ip ⟨0x3c, d, s, off, imm⟩ nx =
          .fatal .divisionByZeroIntrinsic)) ∧
    ((execStep helpers reg ip ⟨0x9c, d, s, off, imm⟩ nx =
        .fatal .divisionByZeroExplicit ↔ reg s = 0) ∧
     (reg s ≠ 0 → reg s % 4294967296 = 0 →
        execStep helpers reg ip ⟨0x9c, d, s, off, imm⟩ nx =
          .fatal .divisionByZeroIntrinsic)) := by
  refine ⟨⟨⟨?_, ?_⟩, ?_⟩, ⟨⟨?_, ?_⟩, ?_⟩⟩
  · intro h
    by_contra hs
    rw [execStep_div32_reg, if_neg hs] at h
    by_cases h2 : reg s % 4294967296 = 0
    · rw [if_pos h2] at h
      simp at h
    · rw [if_neg h2] at h
      simp at h
  · intro h
    rw [execStep_div32_reg, if_pos h]
  · intro h1 h2
    rw [execStep_div32_reg, if_neg h1, if_pos h2]
  · intro h
    by_contra hs
    rw [execStep_mod32_reg, if_neg hs] at h
    by_cases h2 : reg s % 4294967296 = 0
    · rw [if_pos h2] at h
      simp at h
    · rw [if_neg h2] at h
      simp at h
  · intro h
    rw [execStep_mod32_reg, if_pos h]
  · intro h1 h2
    rw [execStep_mod32_reg, if_neg h1, if_pos h2]

/-- Witness for claim C10: with r1 = 2^32 the explicit check of
DIV32_REG passes and the u32 division aborts through the language's own
division-by-zero check. -/
theorem claim10_witness :
    execStep (fun _ => none) lowZeroRegs 1 ⟨0x3c, 0, 1, 0, 0⟩ nopInsn =
      .fatal .divisionByZeroIntrinsic :=
  (claim10_div32_reg_check (fun _ => none) lowZeroRegs 1 0 1 0 0 nopInsn).1.2
    (by decide) (by decide)

/-- Claim C5: for every shift instruction at either width, in immediate
and register form, the count actually applied is the given count taken
modulo the operation width (5 bits for 32-bit shifts, 6 bits for 64-bit
shifts): executing the instruction equals executing the immediate form
whose immediate is the already-masked count, and no count makes the
step abort. -/
theorem claim5_shift_masking (helpers : Nat → Option HelperFn) (reg : RegFile)
    (ip : Nat) (d s : Fin 11) (off imm : Int) (nx : Insn) :
    (execStep helpers reg ip ⟨0x64, d, s, off, imm⟩ nx =
       execStep helpers reg ip ⟨0x64, d, s, off, ((toU32 imm % 32 : Nat) : Int)⟩ nx ∧
     (execStep helpers reg ip ⟨0x64, d, s, off, imm⟩ nx).isOk = true) ∧
    (execStep helpers reg ip ⟨0x6c, d, s, off, imm⟩ nx =
       execStep helpers reg ip ⟨0x64, d, s, off, ((reg s % 32 : Nat) : Int)⟩ nx ∧
     (execStep helpers reg ip ⟨0x6c, d, s, off, imm⟩ nx).isOk = true) ∧
    (execStep helpers reg ip ⟨0x74, d, s, off, imm⟩ nx =
       execStep helpers reg ip ⟨0x74, d, s, off, ((toU32 imm % 32 : Nat) : Int)⟩ nx ∧
     (execStep helpers reg ip ⟨0x74, d, s, off, imm⟩ nx).isOk = true) ∧
    (execStep helpers reg ip ⟨0x7c, d, s, off, imm⟩ nx =
       execStep helpers reg ip ⟨0x74, d, s, off, ((reg s % 32 : Nat) : Int)⟩ nx ∧
     (execStep helpers reg ip ⟨0x7c, d, s, off, imm⟩ nx).isOk = true) ∧
    (execStep helpers reg ip ⟨0xc4, d, s, off, imm⟩ nx =
       execStep helpers reg ip ⟨0xc4, d, s, off, ((toU32 imm % 32 : Nat) : Int)⟩ nx ∧
     (execStep helpers reg ip ⟨0xc4, d, s, off, imm⟩ nx).isOk = true) ∧
    (execStep helpers reg ip ⟨0xcc, d, s, off, imm⟩ nx =
       execStep helpers reg ip ⟨0xc4, d, s, off, ((reg s % 32 : Nat) : Int)⟩ nx ∧
     (execStep helpers reg ip ⟨0xcc, d, s, off, imm⟩ nx).isOk = true) ∧
    (execStep helpers reg ip ⟨0x67, d, s, off, imm⟩ nx =
       execStep helpers reg ip ⟨0x67, d, s, off, ((toU64 imm % 64 : Nat) : Int)⟩ nx ∧
     (execStep helpers reg ip ⟨0x67, d, s, off, imm⟩ nx).isOk = true) ∧
    (execStep helpers reg ip ⟨0x6f, d, s, off, imm⟩ nx =
       execStep helpers reg ip ⟨0x67, d, s, off, ((reg s % 64 : Nat) : Int)⟩ nx ∧
     (execStep helpers reg ip ⟨0x6f, d, s, off, imm⟩ nx).isOk = true) ∧
    (execStep helpers reg ip ⟨0x77, d, s, off, imm⟩ nx =
       execStep helpers reg ip ⟨0x77, d, s, off, ((toU64 imm % 64 : Nat) : Int)⟩ nx ∧
     (execStep helpers reg ip ⟨0x77, d, s, off, imm⟩ nx).isOk = true) ∧
    (execStep helpers reg ip ⟨0x7f, d, s, off, imm⟩ nx =
       execStep helpers reg ip ⟨0x77, d, s, off, ((reg s % 64 : Nat) : Int)⟩ nx ∧
     (execStep helpers reg ip ⟨0x7f, d, s, off, imm⟩ nx).isOk = true) ∧
    (execStep helpers reg ip ⟨0xc7, d, s, off, imm⟩ nx =
       execStep helpers reg ip ⟨0xc7, d, s, off, ((toU32 imm % 64 : Nat) : Int)⟩ nx ∧
     (execStep helpers reg ip ⟨0xc7, d, s, off, imm⟩ nx).isOk = true) ∧
    (execStep helpers reg ip ⟨0xcf, d, s, off, imm⟩ nx =
       execStep helpers reg ip ⟨0xc7, d, s, off, ((reg s % 64 : Nat) : Int)⟩ nx ∧
     (execStep helpers reg ip ⟨0xcf, d, s, off, imm⟩ nx).isOk = true) := by
  refine ⟨⟨?_, ?_⟩, ⟨?_, ?_⟩, ⟨?_, ?_⟩, ⟨?_, ?_⟩, ⟨?_, ?_⟩, ⟨?_, ?_⟩,
    ⟨?_, ?_⟩, ⟨?_, ?_⟩, ⟨?_, ?_⟩, ⟨?_, ?_⟩, ⟨?_, ?_⟩, ⟨?_, ?_⟩⟩
  · rw [execStep_lsh32_imm, execStep_lsh32_imm, cnt32_imm]
  · rw [execStep_lsh32_imm]; rfl
  · rw [execStep_lsh32_reg, execStep_lsh32_imm, cnt32_reg]
  · rw [execStep_lsh32_reg]; rfl
  · rw [execStep_rsh32_imm, execStep_rsh32_imm, cnt32_imm]
  · rw [execStep_rsh32_imm]; rfl
  · rw [execStep_rsh32_reg, execStep_rsh32_imm, cnt32_reg]
  · rw [execStep_rsh32_reg]; rfl
  · rw [execStep_arsh32_imm, execStep_arsh32_imm, cnt32_imm]
  · rw [execStep_arsh32_imm]; rfl
  · rw [execStep_arsh32_reg, execStep_arsh32_imm, cnt32_reg]
  · rw [execStep_arsh32_reg]; rfl
  · rw [execStep_lsh64_imm, execStep_lsh64_imm, cnt64_imm]
  · rw [execStep_lsh64_imm]; rfl
  · rw [execStep_lsh64_reg, execStep_lsh64_imm, cnt64_reg]
  · rw [execStep_lsh64_reg]; rfl
  · rw [execStep_rsh64_imm, execStep_rsh64_imm, cnt64_imm]
  · rw [execStep_rsh64_imm]; rfl
  · rw [execStep_rsh64_reg, execStep_rsh64_imm, cnt64_reg]
  · rw [execStep_rsh64_reg]; rfl
  · rw [execStep_arsh64_imm, execStep_arsh64_imm, cnt64_arsh_imm]
  · rw [execStep_arsh64_imm]; rfl
  · rw [execStep_arsh64_reg, execStep_arsh64_imm, cnt64_arsh_reg]
  · rw [execStep_arsh64_reg]; rfl


/-- Claim C4 (counterexample): the claim states that a taken branch
sets the instruction pointer to the index after the branch plus the
signed offset, for every reachable pointer value.  The interpreter
first casts the pointer to i16, so a JA with offset 0 reached at the
(reachable, in a program of more than 32769 instructions) post-branch
index 32768 yields the wrapped pointer 2^64 - 32768 instead of
32768. -/
theorem claim4_i16_truncation_cex :
    (execStep (fun _ => none) (fun _ => 0) 32768 ⟨0x05, 0, 0, 0, 0⟩ nopInsn).getIp =
      18446744073709518848 ∧
    (execStep (fun _ => none) (fun _ => 0) 32768 ⟨0x05, 0, 0, 0, 0⟩ nopInsn).getIp ≠
      32768 := by decide

/-- Claim C4 (amended): for every taken JMP-class branch, the new
instruction pointer equals the index of the slot after the branch plus
the signed 16-bit offset, provided that index is below 2^15 and the
target lies in [0, 2^15) (the i16 cast in the computation is then the
identity). -/
theorem claim4_branch_target_amended (helpers : Nat → Option HelperFn)
    (reg : RegFile) (ip : Nat) (d s : Fin 11) (off imm : Int) (nx : Insn)
    (hip : ip < 32768) (h1 : 0 ≤ (ip : Int) + off) (h2 : (ip : Int) + off < 32768) :
    (execStep helpers reg ip ⟨0x05, d, s, off, imm⟩ nx).getIp =
      ((ip : Int) + off).toNat ∧
    (reg d = toU64 imm →
      (execStep helpers reg ip ⟨0x15, d, s, off, imm⟩ nx).getIp =
        ((ip : Int) + off).toNat) ∧
    (reg d = reg s →
      (execStep helpers reg ip ⟨0x1d, d, s, off, imm⟩ nx).getIp =
        ((ip : Int) + off).toNat) ∧
    (reg d > toU64 imm →
      (execStep helpers reg ip ⟨0x25, d, s, off, imm⟩ nx).getIp =
        ((ip : Int) + off).toNat) ∧
    (reg d > reg s →
      (execStep helpers reg ip ⟨0x2d, d, s, off, imm⟩ nx).getIp =
        ((ip : Int) + off).toNat) ∧
    (reg d ≥ toU64 imm →
      (execStep helpers reg ip ⟨0x35, d, s, off, imm⟩ nx).getIp =
        ((ip : Int) + off).toNat) ∧
    (reg d ≥ reg s →
      (execStep helpers reg ip ⟨0x3d, d, s, off, imm⟩ nx).getIp =
        ((ip : Int) + off).toNat) ∧
    (reg d &&& toU64 imm ≠ 0 →
      (execStep helpers reg ip ⟨0x45, d, s, off, imm⟩ nx).getIp =
        ((ip : Int) + off).toNat) ∧
    (reg d &&& reg s ≠ 0 →
      (execStep helpers reg ip ⟨0x4d, d, s, off, imm⟩ nx).getIp =
        ((ip : Int) + off).toNat) ∧
    (reg d ≠ toU64 imm →
      (execStep helpers reg ip ⟨0x55, d, s, off, imm⟩ nx).getIp =
        ((ip : Int) + off).toNat) ∧
    (reg d ≠ reg s →
      (execStep helpers reg ip ⟨0x5d, d, s, off, imm⟩ nx).getIp =
        ((ip : Int) + off).toNat) ∧
    (sgt (toI64 (reg d)) imm = true →
      (execStep helpers reg ip ⟨0x65, d, s, off, imm⟩ nx).getIp =
        ((ip : Int) + off).toNat) ∧
    (sgt (toI64 (reg d)) (toI64 (reg s)) = true →
      (execStep helpers reg ip ⟨0x6d, d, s, off, imm⟩ nx).getIp =
        ((ip : Int) + off).toNat) ∧
    (sge (toI64 (reg d)) imm = true →
      (execStep helpers reg ip ⟨0x75, d, s, off, imm⟩ nx).getIp =
        ((ip : Int) + off).toNat) ∧
    (sge (toI64 (reg d)) (toI64 (reg s)) = true →
      (execStep helpers reg ip ⟨0x7d, d, s, off, imm⟩ nx).getIp =
        ((ip : Int) + off).toNat) := by
  have ht := jmpTarget_exact ip off hip h1 h2
  refine ⟨?_, ?_, ?_, ?_, ?_, ?_, ?_, ?_, ?_, ?_, ?_, ?_, ?_, ?_, ?_⟩
  · rw [execStep_ja]
    exact ht
  · intro hc
    rw [execStep_jeq_imm, if_pos hc]
    simp only [StepResult.getIp]
    exact ht
  · intro hc
    rw [execStep_jeq_reg, if_pos hc]
    simp only [StepResult.getIp]
    exact ht
  · intro hc
    rw [execStep_jgt_imm, if_pos hc]
    simp only [StepResult.getIp]
    exact ht
  · intro hc
    rw [execStep_jgt_reg, if_pos hc]
    simp only [StepResult.getIp]
    exact ht
  · intro hc
    rw [execStep_jge_imm, if_pos hc]
    simp only [StepResult.getIp]
    exact ht
  · intro hc
    rw [execStep_jge_reg, if_pos hc]
    simp only [StepResult.getIp]
    exact ht
  · intro hc
    rw [execStep_jset_imm, if_pos hc]
    simp only [StepResult.getIp]
    exact ht
  · intro hc
    rw [execStep_jset_reg, if_pos hc]
    simp only [StepResult.getIp]
    exact ht
  · intro hc
    rw [execStep_jne_imm, if_pos hc]
    simp only [StepResult.getIp]
    exact ht
  · intro hc
    rw [execStep_jne_reg, if_pos hc]
    simp only [StepResult.getIp]
    exact ht
  · intro hc
    rw [execStep_jsgt_imm, if_pos hc]
    simp only [StepResult.getIp]
    exact ht
  · intro hc
    rw [execStep_jsgt_reg, if_pos hc]
    simp only [StepResult.getIp]
    exact ht
  · intro hc
    rw [execStep_jsge_imm, if_pos hc]
    simp only [StepResult.getIp]
    exact ht
  · intro hc
    rw [execStep_jsge_reg, if_pos hc]
    simp only [StepResult.getIp]
    exact ht

/-- Witness for the amended claim C4: JA and a taken JEQ_REG at
post-branch index 10 with offset -3 land on slot 7. -/
theorem claim4_witness :
    (execStep (fun _ => none) demoRegs 10 ⟨0x05, 0, 0, -3, 0⟩ nopInsn).getIp = 7 ∧
    (execStep (fun _ => none) demoRegs 10 ⟨0x1d, 3, 3, -3, 0⟩ nopInsn).getIp = 7 := by
  have ha := (claim4_branch_target_amended (fun _ => none) demoRegs 10 0 0 (-3) 0
    nopInsn (by norm_num) (by norm_num) (by norm_num)).1
  have hb := (claim4_branch_target_amended (fun _ => none) demoRegs 10 3 3 (-3) 0
    nopInsn (by norm_num) (by norm_num) (by norm_num)).2.2.1 rfl
  norm_num at ha hb
  exact ⟨ha, hb⟩

/-- Claim C8: CALL interprets the immediate as an unsigned 32-bit key
looked up in the helper table at execution time; an absent key is a
fatal unknown-helper abort, and a present helper is invoked on the
current (r1, r2, r3, r4, r5) with its u64 return value stored in
r0. -/
theorem claim8_call_dispatch (helpers : Nat → Option HelperFn) (reg : RegFile)
    (ip : Nat) (d s : Fin 11) (off imm : Int) (nx : Insn) :
    (helpers (toU32 imm) = none →
      execStep helpers reg ip ⟨0x85, d, s, off, imm⟩ nx = .fatal .unknownHelper) ∧
    (∀ f : HelperFn, helpers (toU32 imm) = some f →
      (∀ a1 a2 a3 a4 a5 : Nat, f a1 a2 a3 a4 a5 < 18446744073709551616) →
      (execStep helpers reg ip ⟨0x85, d, s, off, imm⟩ nx).getReg 0 =
        f (reg 1) (reg 2) (reg 3) (reg 4) (reg 5) ∧
      (execStep helpers reg ip ⟨0x85, d, s, off, imm⟩ nx).getIp = ip) := by
  constructor
  · intro h
    rw [execStep_call, h]
  · intro f hf hb
    rw [execStep_call, hf]
    constructor
    · simp [StepResult.getReg, setReg]
      exact hb _ _ _ _ _
    · rfl

/-- Witness for claim C8: key 1 is unregistered and aborts; key 0
invokes demoHelperFn on r1..r5 = 1..5 and stores its value in r0. -/
theorem claim8_witness :
    execStep demoHelpers demoRegs 1 ⟨0x85, 0, 0, 0, 1⟩ nopInsn =
      .fatal .unknownHelper ∧
    (execStep demoHelpers demoRegs 1 ⟨0x85, 0, 0, 0, 0⟩ nopInsn).getReg 0 =
      demoHelperFn 1 2 3 4 5 := by
  constructor
  · exact (claim8_call_dispatch demoHelpers demoRegs 1 0 0 0 1 nopInsn).1 rfl
  · exact ((claim8_call_dispatch demoHelpers demoRegs 1 0 0 0 0 nopInsn).2
      demoHelperFn rfl (fun a1 a2 a3 a4 a5 => Nat.mod_lt _ (by norm_num))).1

/-- Claim C9: a CALL that finds its helper changes only r0; every
register other than r0 is unchanged by the step. -/
theorem claim9_call_frame (helpers : Nat → Option HelperFn) (reg : RegFile)
    (ip : Nat) (d s : Fin 11) (off imm : Int) (nx : Insn) (f : HelperFn)
    (hf : helpers (toU32 imm) = some f) :
    ∀ i : Fin 11, i ≠ 0 →
      (execStep helpers reg ip ⟨0x85, d, s, off, imm⟩ nx).getReg i = reg i := by
  intro i hi
  rw [execStep_call, hf]
  simp [StepResult.getReg, setReg, hi]

/-- Witness for claim C9: after a CALL through demoHelpers, r4 still
holds its old value. -/
theorem claim9_witness :
    (execStep demoHelpers demoRegs 1 ⟨0x85, 0, 0, 0, 0⟩ nopInsn).getReg 4 =
      demoRegs 4 :=
  claim9_call_frame demoHelpers demoRegs 1 0 0 0 0 nopInsn demoHelperFn rfl 4
    (by decide)

end Rbpf
